import Mathlib

/-!
Shallow embedding of the weach campaign dashboard (`src/app.py`).

Conventions of the embedding:
* Calendar dates are integer day numbers, so `(d2 - d1).days = d2 - d1`.
* Python floats are modelled as rationals (`ℚ`); the decimal constants of the
  source (`90`, `110`, `0.20`, `50`, `30`, `20`) are all exactly representable.
* A pandas cell whose conversion can raise (`pd.to_datetime(...).date()`,
  `float(...)`) is modelled as an `Option` field: `none` means the conversion
  raises, which the `try/except` of the loop catches.
* `datetime.now().date()` is the reference date; it is a parameter
  `data_atual` of the embedded functions so runs are deterministic.
* `st.error` diagnostics are modelled as the second component of the result:
  the list of `insertion_order` values of the rows whose processing raised.
-/

namespace Weach

/-- One row of the `campanhas` feed (`df_campanhas`).  `inicio_campanha`,
`fim_campanha` and `volume_contratado` are `none` when the corresponding cell
cannot be converted (bad date / non-numeric volume), making the accesses in
`calcular_metricas` raise.  `budget` is kept as a raw character string, as the
source parses it itself. -/
structure Campanha where
  insertion_order : String
  modelo : String
  volume_contratado : Option ℚ
  inicio_campanha : Option Int
  fim_campanha : Option Int
  budget : List Char
deriving DecidableEq, Repr

/-- One row of the daily feed (`df_daily`): `Insertion Order`, `Date`,
`Impressions`, `Clicks`, `Complete_Views`, `Revenue`. -/
structure Fact where
  insertionOrder : String
  date : Int
  impressions : ℚ
  clicks : ℚ
  complete_views : ℚ
  revenue : ℚ
deriving DecidableEq, Repr

/-- One record appended to `resultados` in `calcular_metricas`.  Field names
follow the dict keys of the source.  `underperforming` is `true` for `"Sim"`
and `false` for `"Não"`; `valor_underperforming` is the numeric value whose
formatted string the source stores, `none` standing for `"N/A"`. -/
structure Resultado where
  campanha : String
  modelo : String
  volume_contratado : ℚ
  meta_diaria : ℚ
  volume_acumulado : ℚ
  volume_esperado : ℚ
  ultima_entrega : ℚ
  pace : ℚ
  status : String
  dias_restantes : Int
  inicio_campanha : Int
  fim_campanha : Int
  underperforming : Bool
  valor_underperforming : Option ℚ
  meta_necessaria_diaria : ℚ
deriving DecidableEq, Repr

/-- Outcome of one iteration of the loop body of `calcular_metricas`:
a result row, a silent skip (`continue` for an ended campaign), or a caught
exception reported via `st.error`. -/
inductive RowOutcome where
  | ok (r : Resultado)
  | skipped
  | erro
deriving DecidableEq, Repr

def RowOutcome.toOption : RowOutcome → Option Resultado
  | .ok r => some r
  | .skipped => none
  | .erro => none

/-- `dias_totais = (fim - inicio).days + 1` (line 86). -/
def dias_totais (inicio fim : Int) : Int := (fim - inicio) + 1

/-- `dias_decorridos = (data_atual - inicio).days + 1` (line 87); the source
applies no clamping. -/
def dias_decorridos (inicio data_atual : Int) : Int := (data_atual - inicio) + 1

/-- `df_daily[df_daily['Insertion Order'] == campanha['insertion_order']]`
(line 93). -/
def dados_campanha (df_daily : List Fact) (io : String) : List Fact :=
  df_daily.filter fun f => f.insertionOrder = io

/-- Sum of one numeric column over a selection of facts. -/
def soma (col : Fact → ℚ) (dados : List Fact) : ℚ :=
  (dados.map col).sum

/-- The last row of the selection once sorted ascending by `Date`
(lines 94 and 115): the last occurrence of the maximal date. -/
def ultimaLinha (dados : List Fact) : Option Fact :=
  dados.foldl
    (fun acc f =>
      match acc with
      | none => some f
      | some g => if g.date ≤ f.date then some f else some g)
    none

/-- `volume_acumulado` (line 97): the cumulative delivered volume, summing
`Impressions` for a CPM campaign and `Complete_Views` otherwise. -/
def volume_acumulado (campanha : Campanha) (dados : List Fact) : ℚ :=
  if campanha.modelo = "CPM" then soma (·.impressions) dados
  else soma (·.complete_views) dados

/-- `ctr` (lines 120-121): `soma_clicks / volume_acumulado * 100`, `0` when
the guard `volume_acumulado > 0` fails. -/
def ctr (campanha : Campanha) (dados : List Fact) : ℚ :=
  if volume_acumulado campanha dados > 0 then
    soma (·.clicks) dados / volume_acumulado campanha dados * 100
  else 0

/-- `taxa_complete_views` (line 126): `volume_acumulado / sum(Impressions) * 100`,
`0` when the guard `sum(Impressions) > 0` fails. -/
def taxa_complete_views (campanha : Campanha) (dados : List Fact) : ℚ :=
  if soma (·.impressions) dados > 0 then
    volume_acumulado campanha dados / soma (·.impressions) dados * 100
  else 0

/-- The straight-line block of the loop body of `calcular_metricas`
(lines 90-157), once the dates and the volume have been converted and neither
the `continue` (line 82) nor the `ZeroDivisionError` (line 90) fires. -/
def montaResultado (data_atual : Int) (df_daily : List Fact)
    (campanha : Campanha) (inicio fim : Int) (volume : ℚ) : Resultado :=
  let meta_diaria : ℚ := volume / (dias_totais inicio fim : ℚ)
  let dados := dados_campanha df_daily campanha.insertion_order
  let volume_esperado : ℚ :=
    meta_diaria * (dias_decorridos inicio data_atual : ℚ)
  let pace_acumulado : ℚ :=
    if volume_esperado > 0 then volume_acumulado campanha dados / volume_esperado * 100
    else 0
  let status : String :=
    if pace_acumulado < 90 then "Under"
    else if pace_acumulado > 110 then "Over"
    else "On Track"
  let ultima_metrica : ℚ :=
    match ultimaLinha dados with
    | some f => if campanha.modelo = "CPM" then f.impressions
                else f.complete_views
    | none => 0
  let under : Bool × Option ℚ :=
    if campanha.modelo = "CPM" then
      (decide (ctr campanha dados < 1/5), some (ctr campanha dados))
    else if campanha.modelo = "CPV" then
      (decide (taxa_complete_views campanha dados < 50),
       some (taxa_complete_views campanha dados))
    else (false, none)
  let dias_restantes : Int := fim - data_atual
  let meta_necessaria_diaria : ℚ :=
    if dias_restantes > 0 then
      (volume - volume_acumulado campanha dados) / (dias_restantes : ℚ)
    else 0
  { campanha := campanha.insertion_order
    modelo := campanha.modelo
    volume_contratado := volume
    meta_diaria := meta_diaria
    volume_acumulado := volume_acumulado campanha dados
    volume_esperado := volume_esperado
    ultima_entrega := ultima_metrica
    pace := pace_acumulado
    status := status
    dias_restantes := dias_restantes
    inicio_campanha := inicio
    fim_campanha := fim
    underperforming := under.1
    valor_underperforming := under.2
    meta_necessaria_diaria := meta_necessaria_diaria }

/-- Loop body of `calcular_metricas` (lines 76-160) for one `campanha` row.
Failure points are modelled in source order: date conversion of
`inicio_campanha` and `fim_campanha` (lines 77-78), the `continue` for ended
campaigns (line 82), `float(campanha['volume_contratado'])` (line 90) and the
`ZeroDivisionError` when `dias_totais` is zero (line 90). -/
def processCampanha (data_atual : Int) (df_daily : List Fact)
    (campanha : Campanha) : RowOutcome :=
  match campanha.inicio_campanha with
  | none => .erro
  | some inicio =>
    match campanha.fim_campanha with
    | none => .erro
    | some fim =>
      if fim < data_atual then .skipped
      else
        match campanha.volume_contratado with
        | none => .erro
        | some volume =>
          if dias_totais inicio fim = 0 then .erro
          else .ok (montaResultado data_atual df_daily campanha inicio fim volume)

/-- `calcular_metricas` (lines 72-162): iterate over the contract rows in
order, collecting the result rows and, separately, the identifiers reported
through `st.error` for rows whose processing raised. -/
def calcular_metricas (df_campanhas : List Campanha) (df_daily : List Fact)
    (data_atual : Int) : List Resultado × List String :=
  match df_campanhas with
  | [] => ([], [])
  | c :: rest =>
    let tail := calcular_metricas rest df_daily data_atual
    match processCampanha data_atual df_daily c with
    | .ok r => (r :: tail.1, tail.2)
    | .skipped => tail
    | .erro => (tail.1, c.insertion_order :: tail.2)

/-! ### Budget parsing and the programmatic margin engine -/

/-- `str.replace('R$', '')` (line 170): Python's non-overlapping
left-to-right substring replacement, for the pattern `R$`. -/
def replaceRS : List Char → List Char
  | [] => []
  | 'R' :: '$' :: rest => replaceRS rest
  | ch :: rest => ch :: replaceRS rest

/-- `str.replace('.', '')` (line 170). -/
def removeDots (s : List Char) : List Char :=
  s.filter fun ch => ch ≠ '.'

/-- `str.replace(',', '.')` (line 170). -/
def commaToDot (s : List Char) : List Char :=
  s.map fun ch => if ch = ',' then '.' else ch

/-- Numeric value of a digit string, most significant digit first. -/
def natOfDigits (s : List Char) : ℕ :=
  s.foldl (fun a ch => 10 * a + (ch.toNat - 48)) 0

/-- Split a string at its first `'.'`: the prefix before it and, when a dot
is present, the remainder after it. -/
def splitDot : List Char → List Char × Option (List Char)
  | [] => ([], none)
  | '.' :: rest => ([], some rest)
  | ch :: rest =>
    let p := splitDot rest
    (ch :: p.1, p.2)

/-- Python's `float` (line 170) on the non-negative decimal literals that
budget normalization can produce: a nonempty run of digits with at most one
`'.'` somewhere in it.  Everything else raises `ValueError`, i.e. `none`. -/
def pyFloat (s : List Char) : Option ℚ :=
  let p := splitDot s
  match p.2 with
  | none =>
    if p.1 ≠ [] ∧ p.1.all Char.isDigit then some (natOfDigits p.1 : ℚ)
    else none
  | some frac =>
    if (p.1 ++ frac) ≠ [] ∧ p.1.all Char.isDigit ∧ frac.all Char.isDigit then
      some ((natOfDigits p.1 : ℚ) + (natOfDigits frac : ℚ) / 10 ^ frac.length)
    else none

/-- `float(campanha['budget'].replace('R$', '').replace('.', '').replace(',', '.'))`
(line 170). -/
def parseBudget (b : List Char) : Option ℚ :=
  pyFloat (commaToDot (removeDots (replaceRS b)))

/-- One record appended to `resultados` in `calcular_metricas_programatica`.
`status` holds the source's strings `"Boa"` / `"Média"` / `"Ruim"`. -/
structure ResultadoProg where
  campanha : String
  investimento_total : ℚ
  investimento_entregue : ℚ
  margem : ℚ
  status : String
deriving DecidableEq, Repr

/-- Loop body of `calcular_metricas_programatica` (lines 167-188): `none`
when the budget fails to parse and the exception is caught. -/
def processProgramatica (df_daily : List Fact) (campanha : Campanha) :
    Option ResultadoProg :=
  match parseBudget campanha.budget with
  | none => none
  | some investimento =>
    let dados := dados_campanha df_daily campanha.insertion_order
    let investimento_entregue := soma (·.revenue) dados
    let margem : ℚ :=
      if investimento > 0 then
        (investimento - investimento_entregue) / investimento * 100
      else 0
    some
      { campanha := campanha.insertion_order
        investimento_total := investimento
        investimento_entregue := investimento_entregue
        margem := margem
        status :=
          if margem ≥ 30 then "Boa"
          else if margem ≥ 20 then "Média"
          else "Ruim" }

/-- `calcular_metricas_programatica` (lines 164-190): result rows in input
order, plus the identifiers reported through `st.error` for failed rows. -/
def calcular_metricas_programatica (df_campanhas : List Campanha)
    (df_daily : List Fact) : List ResultadoProg × List String :=
  match df_campanhas with
  | [] => ([], [])
  | c :: rest =>
    let tail := calcular_metricas_programatica rest df_daily
    match processProgramatica df_daily c with
    | some r => (r :: tail.1, tail.2)
    | none => (tail.1, c.insertion_order :: tail.2)

/-! ### Alert broadcast store -/

/-- Modelled from the spec: the repository's `AlertBroadcastStore`
(spec §4.3, §6) is not among the source files under `src/`; only the comment
`--- Mecanismo de alerta global ---` marks where it belongs.  Per the spec its
backing storage is a single JSON array of strings at a well-known path, with
absence of the resource equivalent to an empty list.  The state is the backing
storage's contents, `none` when the resource is absent. -/
def AlertStore : Type := Option (List String)

/-- Modelled from the spec: `list()` returns current alerts in append order,
the empty sequence when none exist or the backing storage is absent, and never
raises on absence (it is total). -/
def AlertStore.list (s : AlertStore) : List String :=
  s.getD []

/-- Modelled from the spec: `append(message)` reads current contents, appends,
and writes back the full list. -/
def AlertStore.append (s : AlertStore) (message : String) : AlertStore :=
  some (s.getD [] ++ [message])

/-- Modelled from the spec: `clear()` removes all entries; absence of prior
entries is not an error. -/
def AlertStore.clear (_ : AlertStore) : AlertStore :=
  some []

/-! ### Brazilian budget format

Spec-side description of the strings that the budget normalization is meant
to accept, for comparison with `parseBudget`. -/

/-- Digit groups joined by `'.'` thousands separators: `[[1],[2,3,4]]` yields
the characters of `1.234`. -/
def mkGrouped : List (List Char) → List Char
  | [] => []
  | [g] => g
  | g :: gs => g ++ '.' :: mkGrouped gs

/-- A Brazilian-formatted budget string: `R$`, dot-grouped integer digits,
then a comma and the decimal digits. -/
def brazilianBudget (gs : List (List Char)) (cents : List Char) : List Char :=
  'R' :: '$' :: (mkGrouped gs ++ ',' :: cents)

/-! ### Concrete feeds

Small concrete contract and fact rows used to exercise the embedded
functions on explicit inputs (asOfDate is day 5 throughout). -/

/-- The end-to-end scenario contract: CPM, volume 10000, day 1 to day 10. -/
def campCPM : Campanha := ⟨"C1", "CPM", some 10000, some 1, some 10, []⟩

/-- Facts for `campCPM`, impressions summing to 4500 by day 5. -/
def fatoA : Fact := ⟨"C1", 2, 2000, 3, 0, 0⟩

def fatoB : Fact := ⟨"C1", 4, 2500, 4, 0, 0⟩

/-- A contract whose model is neither CPM nor CPV. -/
def campOutro : Campanha := ⟨"X1", "CPD", some 100, some 1, some 10, []⟩

/-- A fact for `campOutro`: 100 impressions, 10 complete views. -/
def fatoX : Fact := ⟨"X1", 2, 100, 1, 10, 0⟩

/-- End date (day 8) before start date (day 10): `dias_totais = -1`. -/
def campInvertida : Campanha := ⟨"B1", "CPM", some 100, some 10, some 8, []⟩

/-- Start one day after end: `dias_totais = 0` (division by zero). -/
def campDiaZero : Campanha := ⟨"B2", "CPM", some 100, some 6, some 5, []⟩

/-- Start (day 10) after the reference day 5: `dias_decorridos = -4`. -/
def campFutura : Campanha := ⟨"F1", "CPM", some 100, some 10, some 20, []⟩

/-- A contract whose `volume_contratado` cell is not numeric. -/
def campSemVolume : Campanha := ⟨"E1", "CPM", none, some 1, some 10, []⟩

/-- A contract with a parseable budget `R$100,00`. -/
def campProg : Campanha :=
  ⟨"P1", "CPM", some 100, some 1, some 10,
   ['R', '$', '1', '0', '0', ',', '0', '0']⟩

/-- A revenue fact for `campProg`. -/
def fatoProg : Fact := ⟨"P1", 2, 0, 0, 0, 65⟩

/-- The row the engine produces for `campCPM` on day 5. -/
def resultadoCPM : Resultado := montaResultado 5 [fatoA, fatoB] campCPM 1 10 10000

/-- The row the engine produces for `campFutura` on day 5. -/
def resultadoFutura : Resultado := montaResultado 5 [] campFutura 10 20 100

/-! ### Helper lemmas -/

theorem toOption_eq_some_iff (o : RowOutcome) (r : Resultado) :
    o.toOption = some r ↔ o = .ok r := by
  cases o <;> simp [RowOutcome.toOption]

theorem calcular_fst_eq_filterMap (cs : List Campanha) (fs : List Fact)
    (hoje : Int) :
    (calcular_metricas cs fs hoje).1
      = cs.filterMap (fun c => (processCampanha hoje fs c).toOption) := by
  induction cs with
  | nil => rfl
  | cons c rest ih =>
    cases h : processCampanha hoje fs c <;>
      simp [calcular_metricas, h, RowOutcome.toOption, ih]

theorem mem_calcular_fst_iff (cs : List Campanha) (fs : List Fact)
    (hoje : Int) (r : Resultado) :
    r ∈ (calcular_metricas cs fs hoje).1 ↔
      ∃ c ∈ cs, processCampanha hoje fs c = .ok r := by
  rw [calcular_fst_eq_filterMap]
  simp [List.mem_filterMap, toOption_eq_some_iff]

theorem calcular_append (xs ys : List Campanha) (fs : List Fact) (hoje : Int) :
    calcular_metricas (xs ++ ys) fs hoje
      = ((calcular_metricas xs fs hoje).1 ++ (calcular_metricas ys fs hoje).1,
         (calcular_metricas xs fs hoje).2 ++ (calcular_metricas ys fs hoje).2) := by
  induction xs with
  | nil => simp [calcular_metricas]
  | cons c rest ih =>
    cases h : processCampanha hoje fs c <;>
      simp [calcular_metricas, h, ih]

theorem processCampanha_ok_iff (hoje : Int) (fs : List Fact) (c : Campanha)
    (r : Resultado) :
    processCampanha hoje fs c = .ok r ↔
      ∃ inicio fim volume,
        c.inicio_campanha = some inicio ∧ c.fim_campanha = some fim ∧
        c.volume_contratado = some volume ∧ ¬ fim < hoje ∧
        dias_totais inicio fim ≠ 0 ∧
        r = montaResultado hoje fs c inicio fim volume := by
  obtain ⟨io, mo, vol, ini, fimc, bud⟩ := c
  rcases ini with _ | inicio
  · simp [processCampanha]
  rcases fimc with _ | fim
  · simp [processCampanha]
  by_cases hend : fim < hoje
  · simp [processCampanha, hend]
  rcases vol with _ | volume
  · simp [processCampanha, hend]
  by_cases hdt : dias_totais inicio fim = 0
  · simp [processCampanha, hend, hdt]
  · simp only [processCampanha, hend, hdt, if_neg, if_false, eq_comm]
    have h1 : hoje ≤ fim := Int.not_lt.mp hend
    have h2 : ¬(0 = dias_totais inicio fim) := fun h0 => hdt h0.symm
    simp [h1, h2, RowOutcome.ok.injEq, eq_comm]

theorem processCampanha_zero_erro (hoje : Int) (fs : List Fact) (c : Campanha)
    (inicio fim : Int) (hi : c.inicio_campanha = some inicio)
    (hf : c.fim_campanha = some fim) (hend : ¬ fim < hoje)
    (hdt : dias_totais inicio fim = 0) :
    processCampanha hoje fs c = .erro := by
  obtain ⟨io, mo, vol, ini, fimc, bud⟩ := c
  simp only [Campanha.inicio_campanha, Campanha.fim_campanha] at hi hf
  subst hi
  subst hf
  cases vol with
  | none => simp [processCampanha, hend]
  | some volume => simp [processCampanha, hend, hdt]

theorem processCampanha_skipped_of_ended (hoje : Int) (fs : List Fact)
    (c : Campanha) (inicio fim : Int) (hi : c.inicio_campanha = some inicio)
    (hf : c.fim_campanha = some fim) (hend : fim < hoje) :
    processCampanha hoje fs c = .skipped := by
  obtain ⟨io, mo, vol, ini, fimc, bud⟩ := c
  simp only [Campanha.inicio_campanha, Campanha.fim_campanha] at hi hf
  subst hi
  subst hf
  simp [processCampanha, hend]

theorem calcular_cons_erro (c : Campanha) (rest : List Campanha)
    (fs : List Fact) (hoje : Int) (h : processCampanha hoje fs c = .erro) :
    calcular_metricas (c :: rest) fs hoje
      = ((calcular_metricas rest fs hoje).1,
         c.insertion_order :: (calcular_metricas rest fs hoje).2) := by
  simp [calcular_metricas, h]

theorem calcular_prog_cons_some (c : Campanha) (rest : List Campanha)
    (fs : List Fact) (r : ResultadoProg)
    (h : processProgramatica fs c = some r) :
    calcular_metricas_programatica (c :: rest) fs
      = (r :: (calcular_metricas_programatica rest fs).1,
         (calcular_metricas_programatica rest fs).2) := by
  simp [calcular_metricas_programatica, h]

theorem montaResultado_fim (hoje : Int) (fs : List Fact) (c : Campanha)
    (inicio fim : Int) (volume : ℚ) :
    (montaResultado hoje fs c inicio fim volume).fim_campanha = fim := rfl

theorem montaResultado_inicio (hoje : Int) (fs : List Fact) (c : Campanha)
    (inicio fim : Int) (volume : ℚ) :
    (montaResultado hoje fs c inicio fim volume).inicio_campanha = inicio := rfl

theorem montaResultado_meta_diaria (hoje : Int) (fs : List Fact) (c : Campanha)
    (inicio fim : Int) (volume : ℚ) :
    (montaResultado hoje fs c inicio fim volume).meta_diaria
      = volume / (dias_totais inicio fim : ℚ) := rfl

theorem montaResultado_volume_esperado (hoje : Int) (fs : List Fact)
    (c : Campanha) (inicio fim : Int) (volume : ℚ) :
    (montaResultado hoje fs c inicio fim volume).volume_esperado
      = (montaResultado hoje fs c inicio fim volume).meta_diaria
          * (dias_decorridos inicio hoje : ℚ) := rfl

theorem montaResultado_status (hoje : Int) (fs : List Fact) (c : Campanha)
    (inicio fim : Int) (volume : ℚ) :
    (montaResultado hoje fs c inicio fim volume).status =
      if (montaResultado hoje fs c inicio fim volume).pace < 90 then "Under"
      else if (montaResultado hoje fs c inicio fim volume).pace > 110 then "Over"
      else "On Track" := rfl

theorem montaResultado_under_cpm (hoje : Int) (fs : List Fact) (c : Campanha)
    (inicio fim : Int) (volume : ℚ) (h : c.modelo = "CPM") :
    (montaResultado hoje fs c inicio fim volume).underperforming
        = decide (ctr c (dados_campanha fs c.insertion_order) < 1/5) ∧
    (montaResultado hoje fs c inicio fim volume).valor_underperforming
        = some (ctr c (dados_campanha fs c.insertion_order)) := by
  constructor <;> simp [montaResultado, h]

theorem montaResultado_under_cpv (hoje : Int) (fs : List Fact) (c : Campanha)
    (inicio fim : Int) (volume : ℚ) (h : c.modelo = "CPV") :
    (montaResultado hoje fs c inicio fim volume).underperforming
        = decide (taxa_complete_views c (dados_campanha fs c.insertion_order) < 50) ∧
    (montaResultado hoje fs c inicio fim volume).valor_underperforming
        = some (taxa_complete_views c (dados_campanha fs c.insertion_order)) := by
  constructor <;> simp [montaResultado, h]

theorem montaResultado_under_outro (hoje : Int) (fs : List Fact) (c : Campanha)
    (inicio fim : Int) (volume : ℚ) (h1 : c.modelo ≠ "CPM")
    (h2 : c.modelo ≠ "CPV") :
    (montaResultado hoje fs c inicio fim volume).underperforming = false ∧
    (montaResultado hoje fs c inicio fim volume).valor_underperforming = none := by
  constructor <;> simp [montaResultado, h1, h2]

theorem isDigit_ne_R (ch : Char) (h : ch.isDigit = true) : ch ≠ 'R' := by
  rintro rfl
  exact absurd h (by decide)

theorem isDigit_ne_dot (ch : Char) (h : ch.isDigit = true) : ch ≠ '.' := by
  rintro rfl
  exact absurd h (by decide)

theorem isDigit_ne_comma (ch : Char) (h : ch.isDigit = true) : ch ≠ ',' := by
  rintro rfl
  exact absurd h (by decide)

theorem replaceRS_cons_ne (ch : Char) (rest : List Char) (h : ch ≠ 'R') :
    replaceRS (ch :: rest) = ch :: replaceRS rest := by
  rw [replaceRS.eq_def]
  split
  · rename_i heq
    exact absurd heq (by simp)
  · rename_i tl heq
    rw [List.cons.injEq] at heq
    exact absurd heq.1 h
  · rename_i ch2 rest2 hno heq
    rw [List.cons.injEq] at heq
    rw [heq.1, heq.2]

theorem replaceRS_of_not_mem (l : List Char) (h : 'R' ∉ l) : replaceRS l = l := by
  induction l with
  | nil => rfl
  | cons ch rest ih =>
    have hch : ch ≠ 'R' := by
      rintro rfl
      exact h (List.mem_cons_self _ _)
    rw [replaceRS_cons_ne ch rest hch,
      ih fun hm => h (List.mem_cons_of_mem ch hm)]

theorem removeDots_no_dot (l : List Char) (h : '.' ∉ l) : removeDots l = l := by
  refine List.filter_eq_self.mpr fun a ha => ?_
  have : a ≠ '.' := by
    rintro rfl
    exact h ha
  simpa using this

theorem splitDot_cons_ne (ch : Char) (rest : List Char) (h : ch ≠ '.') :
    splitDot (ch :: rest) = (ch :: (splitDot rest).1, (splitDot rest).2) := by
  rw [splitDot.eq_def]
  split
  · rename_i heq
    exact absurd heq (by simp)
  · rename_i tl heq
    rw [List.cons.injEq] at heq
    exact absurd heq.1 h
  · rename_i ch2 rest2 hno heq
    rw [List.cons.injEq] at heq
    rw [heq.1, heq.2]

theorem splitDot_no_dot (l : List Char) (h : '.' ∉ l) : splitDot l = (l, none) := by
  induction l with
  | nil => rfl
  | cons ch rest ih =>
    have hch : ch ≠ '.' := by
      rintro rfl
      exact h (List.mem_cons_self _ _)
    rw [splitDot_cons_ne ch rest hch, ih fun hm => h (List.mem_cons_of_mem ch hm)]

theorem splitDot_append_dot (a b : List Char) (h : '.' ∉ a) :
    splitDot (a ++ '.' :: b) = (a, some b) := by
  induction a with
  | nil => rfl
  | cons ch rest ih =>
    have hch : ch ≠ '.' := by
      rintro rfl
      exact h (List.mem_cons_self _ _)
    rw [List.cons_append, splitDot_cons_ne ch _ hch,
      ih fun hm => h (List.mem_cons_of_mem ch hm)]

theorem commaToDot_no_comma (l : List Char) (h : ',' ∉ l) : commaToDot l = l := by
  induction l with
  | nil => rfl
  | cons ch rest ih =>
    have hch : ch ≠ ',' := by
      rintro rfl
      exact h (List.mem_cons_self _ _)
    simp only [commaToDot, List.map_cons, if_neg hch]
    rw [show List.map (fun ch => if ch = ',' then '.' else ch) rest = commaToDot rest
      from rfl, ih fun hm => h (List.mem_cons_of_mem ch hm)]

theorem pyFloat_digits (l : List Char) (hne : l ≠ [])
    (hd : ∀ ch ∈ l, ch.isDigit = true) :
    pyFloat l = some ((natOfDigits l : ℚ)) := by
  have hnd : '.' ∉ l := fun hm => absurd (hd _ hm) (by decide)
  have ha : l.all Char.isDigit = true := List.all_eq_true.mpr hd
  simp [pyFloat, splitDot_no_dot l hnd, hne, ha]

theorem pyFloat_digits_dot (a b : List Char) (hne : a ++ b ≠ [])
    (hda : ∀ ch ∈ a, ch.isDigit = true) (hdb : ∀ ch ∈ b, ch.isDigit = true) :
    pyFloat (a ++ '.' :: b)
      = some ((natOfDigits a : ℚ) + (natOfDigits b : ℚ) / 10 ^ b.length) := by
  have hnd : '.' ∉ a := fun hm => absurd (hda _ hm) (by decide)
  have haa : a.all Char.isDigit = true := List.all_eq_true.mpr hda
  have hab : b.all Char.isDigit = true := List.all_eq_true.mpr hdb
  simp [pyFloat, splitDot_append_dot a b hnd, hne, haa, hab]

theorem mem_mkGrouped (gs : List (List Char))
    (hg : ∀ g ∈ gs, ∀ ch ∈ g, ch.isDigit = true) :
    ∀ ch ∈ mkGrouped gs, ch.isDigit = true ∨ ch = '.' := by
  induction gs with
  | nil =>
    intro ch h
    simp [mkGrouped] at h
  | cons g rest ih =>
    cases rest with
    | nil =>
      intro ch h
      exact Or.inl (hg g (by simp) ch (by simpa [mkGrouped] using h))
    | cons g2 rest2 =>
      intro ch h
      rw [show mkGrouped (g :: g2 :: rest2) = g ++ '.' :: mkGrouped (g2 :: rest2)
        from rfl] at h
      rcases List.mem_append.mp h with h | h
      · exact Or.inl (hg g (by simp) ch h)
      rcases List.mem_cons.mp h with h | h
      · exact Or.inr h
      · exact ih (fun g' hg' => hg g' (by simp [hg'])) ch h

theorem removeDots_mkGrouped (gs : List (List Char))
    (hg : ∀ g ∈ gs, ∀ ch ∈ g, ch.isDigit = true) :
    removeDots (mkGrouped gs) = gs.flatten := by
  induction gs with
  | nil => rfl
  | cons g rest ih =>
    cases rest with
    | nil =>
      show removeDots g = g ++ []
      rw [List.append_nil]
      exact removeDots_no_dot g fun hm =>
        absurd (hg g (by simp) _ hm) (by decide)
    | cons g2 rest2 =>
      rw [show mkGrouped (g :: g2 :: rest2) = g ++ '.' :: mkGrouped (g2 :: rest2)
        from rfl]
      show removeDots (g ++ '.' :: mkGrouped (g2 :: rest2)) = g ++ (g2 :: rest2).flatten
      rw [show removeDots (g ++ '.' :: mkGrouped (g2 :: rest2))
            = removeDots g ++ removeDots ('.' :: mkGrouped (g2 :: rest2))
          from List.filter_append _ _]
      rw [show removeDots ('.' :: mkGrouped (g2 :: rest2))
            = removeDots (mkGrouped (g2 :: rest2)) from by simp [removeDots]]
      rw [removeDots_no_dot g fun hm => absurd (hg g (by simp) _ hm) (by decide),
        ih fun g' hg' => hg g' (by simp [hg'])]

theorem status_ite_partition (p : ℚ) :
    ((if p < 90 then "Under" else if p > 110 then "Over" else "On Track")
        = "Under" ↔ p < 90) ∧
    ((if p < 90 then "Under" else if p > 110 then "Over" else "On Track")
        = "Over" ↔ 110 < p) ∧
    ((if p < 90 then "Under" else if p > 110 then "Over" else "On Track")
        = "On Track" ↔ 90 ≤ p ∧ p ≤ 110) := by
  rcases lt_or_le p 90 with h | h
  · have h2 : ¬ 90 ≤ p := not_le.mpr h
    have h6 : p ≤ 110 := le_trans h.le (by norm_num)
    simp [h, h2, h6]
  · have h4 : ¬ p < 90 := not_lt.mpr h
    rcases lt_or_le 110 p with h3 | h3
    · have h5 : ¬ p ≤ 110 := not_le.mpr h3
      simp [h3, h4, h5]
    · have h5 : ¬ 110 < p := not_lt.mpr h3
      simp [h4, h5, h, h3]

theorem margem_ite_partition (m : ℚ) :
    ((if m ≥ 30 then "Boa" else if m ≥ 20 then "Média" else "Ruim")
        = "Boa" ↔ 30 ≤ m) ∧
    ((if m ≥ 30 then "Boa" else if m ≥ 20 then "Média" else "Ruim")
        = "Média" ↔ 20 ≤ m ∧ m < 30) ∧
    ((if m ≥ 30 then "Boa" else if m ≥ 20 then "Média" else "Ruim")
        = "Ruim" ↔ m < 20) := by
  rcases le_or_lt 30 m with h | h
  · have h2 : ¬ m < 30 := not_lt.mpr h
    have h3 : ¬ m < 20 := not_lt.mpr (le_trans (by norm_num) h)
    simp [h, h2, h3, ge_iff_le]
  · have h2 : ¬ 30 ≤ m := not_le.mpr h
    rcases le_or_lt 20 m with h4 | h4
    · simp [h2, h4, h, ge_iff_le, not_le.mpr h]
    · have h5 : ¬ 20 ≤ m := not_le.mpr h4
      simp [h2, h4, h5, ge_iff_le]

/-! ### Claims -/

/-- C1: every row output by `calcular_metricas` has its status determined
solely by the pacing ratio: `Under` exactly when the ratio is below 90,
`Over` exactly when it is above 110, and `On Track` exactly on the closed
interval from 90 to 110, so the boundary ratios 90 and 110 both give
`On Track`. -/
theorem C1_status_particao (cs : List Campanha) (fs : List Fact) (hoje : Int)
    (r : Resultado) (hr : r ∈ (calcular_metricas cs fs hoje).1) :
    (r.status = "Under" ↔ r.pace < 90) ∧
    (r.status = "Over" ↔ 110 < r.pace) ∧
    (r.status = "On Track" ↔ 90 ≤ r.pace ∧ r.pace ≤ 110) := by
  obtain ⟨c, hc, hok⟩ := (mem_calcular_fst_iff cs fs hoje r).mp hr
  obtain ⟨inicio, fim, volume, hi, hf, hv, hend, hdt, rfl⟩ :=
    (processCampanha_ok_iff hoje fs c r).mp hok
  rw [montaResultado_status]
  exact status_ite_partition _

/-- Witness for C1: the concrete CPM run on day 5, whose row has pace 90. -/
theorem C1_status_particao_witness :
    (resultadoCPM.status = "Under" ↔ resultadoCPM.pace < 90) ∧
    (resultadoCPM.status = "Over" ↔ 110 < resultadoCPM.pace) ∧
    (resultadoCPM.status = "On Track" ↔
      90 ≤ resultadoCPM.pace ∧ resultadoCPM.pace ≤ 110) :=
  C1_status_particao [campCPM] [fatoA, fatoB] 5 resultadoCPM (by
    rw [mem_calcular_fst_iff]
    refine ⟨campCPM, by simp, ?_⟩
    rw [processCampanha_ok_iff]
    exact ⟨1, 10, 10000, rfl, rfl, rfl, by decide, by decide, rfl⟩)

/-- C2: starting from an alert store whose backing storage is absent or
empty, appending "a" then "b" makes `list` return ["a", "b"] in append
order; a subsequent `clear` makes `list` return the empty sequence; and
`list` of an absent backing storage is the empty sequence (the operation is
total, so it cannot raise). -/
theorem C2_alert_roundtrip (s : AlertStore) (h : s = none ∨ s = some []) :
    ((s.append "a").append "b").list = ["a", "b"] ∧
    (((s.append "a").append "b").clear).list = [] ∧
    AlertStore.list none = [] := by
  rcases h with rfl | rfl <;> exact ⟨rfl, rfl, rfl⟩

/-- Witness for C2: the store whose backing storage is absent. -/
theorem C2_alert_roundtrip_witness :
    ((AlertStore.append (AlertStore.append none "a") "b").list = ["a", "b"]) ∧
    ((AlertStore.append (AlertStore.append none "a") "b").clear).list = [] ∧
    AlertStore.list none = [] :=
  C2_alert_roundtrip none (Or.inl rfl)

/-- C3 as stated is false: a contract whose model is neither CPM nor CPV
(here "CPD") whose completion rate is 10 (< 50) still gets the flag Não and
the value N/A — the completion-rate rule fires only for the literal model
string CPV, not for every non-CPM model. -/
theorem C3_counterexample :
    (calcular_metricas [campOutro] [fatoX] 5).1.map
        (fun r => (r.modelo, r.underperforming, r.valor_underperforming))
      = [("CPD", false, none)] ∧
    volume_acumulado campOutro (dados_campanha [fatoX] "X1")
        / soma (·.impressions) (dados_campanha [fatoX] "X1") * 100 < 50 := by
  constructor
  · norm_num [calcular_metricas, processCampanha, montaResultado, dias_totais,
      dias_decorridos, dados_campanha, soma, ultimaLinha, campOutro, fatoX]
    simp
  · simp [volume_acumulado, dados_campanha, soma, campOutro, fatoX]
    norm_num

/-- C3 (amended): the underperformance flag branches on the literal model
string: for CPM the flag is Sim exactly when the ctr (0 when cumulative
delivered is not positive) is below 0.20 and the ctr is recorded alongside;
for CPV the flag is Sim exactly when the completion rate (0 when the
impressions sum is not positive) is below 50 and the rate is recorded; for
every other model the flag is Não and the recorded value is N/A. -/
theorem C3_underperformance (hoje : Int) (fs : List Fact) (c : Campanha)
    (r : Resultado) (h : processCampanha hoje fs c = .ok r) :
    (c.modelo = "CPM" →
      r.valor_underperforming
          = some (ctr c (dados_campanha fs c.insertion_order)) ∧
      (r.underperforming = true ↔
        ctr c (dados_campanha fs c.insertion_order) < 1/5)) ∧
    (c.modelo = "CPV" →
      r.valor_underperforming
          = some (taxa_complete_views c (dados_campanha fs c.insertion_order)) ∧
      (r.underperforming = true ↔
        taxa_complete_views c (dados_campanha fs c.insertion_order) < 50)) ∧
    (c.modelo ≠ "CPM" → c.modelo ≠ "CPV" →
      r.underperforming = false ∧ r.valor_underperforming = none) := by
  obtain ⟨inicio, fim, volume, hi, hf, hv, hend, hdt, rfl⟩ :=
    (processCampanha_ok_iff hoje fs c _).mp h
  refine ⟨fun hm => ?_, fun hm => ?_, fun h1 h2 => ?_⟩
  · obtain ⟨hu, hval⟩ := montaResultado_under_cpm hoje fs c inicio fim volume hm
    exact ⟨hval, by simp [hu]⟩
  · obtain ⟨hu, hval⟩ := montaResultado_under_cpv hoje fs c inicio fim volume hm
    exact ⟨hval, by simp [hu]⟩
  · exact montaResultado_under_outro hoje fs c inicio fim volume h1 h2

/-- Witness for the amended C3: the concrete CPM run on day 5. -/
theorem C3_underperformance_witness :
    (campCPM.modelo = "CPM" →
      resultadoCPM.valor_underperforming
          = some (ctr campCPM (dados_campanha [fatoA, fatoB] campCPM.insertion_order)) ∧
      (resultadoCPM.underperforming = true ↔
        ctr campCPM (dados_campanha [fatoA, fatoB] campCPM.insertion_order) < 1/5)) ∧
    (campCPM.modelo = "CPV" →
      resultadoCPM.valor_underperforming
          = some (taxa_complete_views campCPM
              (dados_campanha [fatoA, fatoB] campCPM.insertion_order)) ∧
      (resultadoCPM.underperforming = true ↔
        taxa_complete_views campCPM
            (dados_campanha [fatoA, fatoB] campCPM.insertion_order) < 50)) ∧
    (campCPM.modelo ≠ "CPM" → campCPM.modelo ≠ "CPV" →
      resultadoCPM.underperforming = false ∧
      resultadoCPM.valor_underperforming = none) :=
  C3_underperformance 5 [fatoA, fatoB] campCPM resultadoCPM
    ((processCampanha_ok_iff 5 [fatoA, fatoB] campCPM resultadoCPM).mpr
      ⟨1, 10, 10000, rfl, rfl, rfl, by decide, by decide, rfl⟩)

/-- C4 as stated is false: the contract from day 10 to day 8 seen on day 5
has `dias_totais = -1 < 1`, yet there is no InvalidContractError: the row is
not skipped, no diagnostic is reported, and it contributes an output row
(with daily target 100 / (-1) = -100). -/
theorem C4_counterexample :
    dias_totais 10 8 < 1 ∧
    (calcular_metricas [campInvertida] [] 5).1.map
        (fun r => (r.campanha, r.meta_diaria)) = [("B1", -100)] ∧
    (calcular_metricas [campInvertida] [] 5).2 = [] := by
  refine ⟨by decide, ?_, ?_⟩
  · norm_num [calcular_metricas, processCampanha, montaResultado, dias_totais,
      dias_decorridos, dados_campanha, soma, ultimaLinha, campInvertida]
  · norm_num [calcular_metricas, processCampanha, montaResultado, dias_totais,
      dias_decorridos, dados_campanha, soma, ultimaLinha, campInvertida]

/-- C4 (amended): `dias_totais = (fim − inicio).days + 1`; a parsed,
non-ended contract whose `dias_totais` is exactly 0 fails by division by
zero, which is caught, so the row yields no output; but a contract whose
`dias_totais` is any other value — negative included — is processed and
contributes an output row with daily target volume / dias_totais, so
`dias_totais ≥ 1` is not an invariant of the output. -/
theorem C4_dias_totais (hoje : Int) (fs : List Fact) (c : Campanha)
    (inicio fim : Int) (volume : ℚ) (hi : c.inicio_campanha = some inicio)
    (hf : c.fim_campanha = some fim) (hv : c.volume_contratado = some volume)
    (hend : ¬ fim < hoje) :
    (dias_totais inicio fim = 0 → processCampanha hoje fs c = .erro) ∧
    (dias_totais inicio fim ≠ 0 →
      processCampanha hoje fs c
          = .ok (montaResultado hoje fs c inicio fim volume) ∧
      (montaResultado hoje fs c inicio fim volume).meta_diaria
          = volume / (dias_totais inicio fim : ℚ)) := by
  constructor
  · intro hdt
    exact processCampanha_zero_erro hoje fs c inicio fim hi hf hend hdt
  · intro hdt
    refine ⟨(processCampanha_ok_iff hoje fs c _).mpr
      ⟨inicio, fim, volume, hi, hf, hv, hend, hdt, rfl⟩, ?_⟩
    exact montaResultado_meta_diaria hoje fs c inicio fim volume

/-- Witness for the amended C4: the contract with `dias_totais = 0`. -/
theorem C4_dias_totais_witness :
    (dias_totais 6 5 = 0 → processCampanha 5 [] campDiaZero = .erro) ∧
    (dias_totais 6 5 ≠ 0 →
      processCampanha 5 [] campDiaZero
          = .ok (montaResultado 5 [] campDiaZero 6 5 100) ∧
      (montaResultado 5 [] campDiaZero 6 5 100).meta_diaria
          = 100 / (dias_totais 6 5 : ℚ)) :=
  C4_dias_totais 5 [] campDiaZero 6 5 100 rfl rfl rfl (by decide)

/-- C5 as stated is false: the contract starting on day 10 and ending on
day 20, seen on day 5, has `dias_decorridos = -4`: the source applies no
clamping, the contract is still processed, and the negative elapsed-days
value propagates into a negative expected volume in the output row. -/
theorem C5_counterexample :
    dias_decorridos 10 5 = -4 ∧
    (calcular_metricas [campFutura] [] 5).1.map
        (fun r => (r.campanha, r.volume_esperado)) = [("F1", -400/11)] ∧
    (-400/11 : ℚ) < 0 := by
  refine ⟨by decide, ?_, by norm_num⟩
  norm_num [calcular_metricas, processCampanha, montaResultado, dias_totais,
    dias_decorridos, dados_campanha, soma, ultimaLinha, campFutura]

/-- C5 (amended): elapsed days is `(asOfDate − inicio).days + 1` with no
clamping: every output row's expected volume is its daily target times that
signed quantity, which is negative whenever the start date is more than one
day after asOfDate. -/
theorem C5_dias_decorridos (cs : List Campanha) (fs : List Fact) (hoje : Int)
    (r : Resultado) (hr : r ∈ (calcular_metricas cs fs hoje).1) :
    ∃ c ∈ cs, c.inicio_campanha = some r.inicio_campanha ∧
      r.volume_esperado
          = r.meta_diaria * (dias_decorridos r.inicio_campanha hoje : ℚ) ∧
      dias_decorridos r.inicio_campanha hoje
          = (hoje - r.inicio_campanha) + 1 := by
  obtain ⟨c, hc, hok⟩ := (mem_calcular_fst_iff cs fs hoje r).mp hr
  obtain ⟨inicio, fim, volume, hi, hf, hv, hend, hdt, rfl⟩ :=
    (processCampanha_ok_iff hoje fs c _).mp hok
  refine ⟨c, hc, ?_, ?_, rfl⟩
  · rw [montaResultado_inicio]
    exact hi
  · rw [montaResultado_inicio]
    exact montaResultado_volume_esperado hoje fs c inicio fim volume

/-- Witness for the amended C5: the contract starting after the reference
date, whose elapsed days is -4. -/
theorem C5_dias_decorridos_witness :
    ∃ c ∈ [campFutura], c.inicio_campanha = some resultadoFutura.inicio_campanha ∧
      resultadoFutura.volume_esperado
          = resultadoFutura.meta_diaria
              * (dias_decorridos resultadoFutura.inicio_campanha 5 : ℚ) ∧
      dias_decorridos resultadoFutura.inicio_campanha 5
          = (5 - resultadoFutura.inicio_campanha) + 1 :=
  C5_dias_decorridos [campFutura] [] 5 resultadoFutura (by
    rw [mem_calcular_fst_iff]
    refine ⟨campFutura, by simp, ?_⟩
    rw [processCampanha_ok_iff]
    exact ⟨10, 20, 100, rfl, rfl, rfl, by decide, by decide, rfl⟩)

/-- C6: the end-to-end scenario: contract C1, model CPM, volume 10000,
day 1 to day 10, facts whose impressions sum to 4500, asOfDate day 5
(elapsed days 5, total days 10) gives daily target 1000, expected volume
5000, pace 90 with status On Track, 5 days remaining, and required daily
rate (10000 − 4500) / 5 = 1100. -/
theorem C6_cenario :
    (calcular_metricas [campCPM] [fatoA, fatoB] 5).1.map
        (fun r => (r.meta_diaria, r.volume_esperado, r.pace, r.status,
                   r.dias_restantes, r.meta_necessaria_diaria))
      = [(1000, 5000, 90, "On Track", 5, 1100)] ∧
    dias_decorridos 1 5 = 5 ∧ dias_totais 1 10 = 10 ∧
    (1100 : ℚ) = (10000 - 4500) / 5 := by
  refine ⟨?_, by decide, by decide, by norm_num⟩
  norm_num [calcular_metricas, processCampanha, montaResultado, dias_totais,
    dias_decorridos, dados_campanha, soma, ultimaLinha, volume_acumulado,
    campCPM, fatoA, fatoB]

/-- C7: for every contract whose budget string parses, the margin engine
produces a row with delivered equal to the sum of revenue over the
contract's facts, margin equal to (budget − delivered)/budget·100 when the
budget is positive and 0 otherwise, and status Boa exactly when the margin
is at least 30, Média exactly when it is at least 20 and below 30, and Ruim
exactly when it is below 20 — so margins 30 and 20 fall in Boa and Média
respectively. -/
theorem C7_margens (fs : List Fact) (c : Campanha) (b : ℚ)
    (hb : parseBudget c.budget = some b) :
    ∃ r, processProgramatica fs c = some r ∧
      (∀ rest, (calcular_metricas_programatica (c :: rest) fs).1
          = r :: (calcular_metricas_programatica rest fs).1) ∧
      r.investimento_total = b ∧
      r.investimento_entregue
          = soma (·.revenue) (dados_campanha fs c.insertion_order) ∧
      r.margem = (if b > 0
          then (b - r.investimento_entregue) / b * 100 else 0) ∧
      (r.status = "Boa" ↔ 30 ≤ r.margem) ∧
      (r.status = "Média" ↔ 20 ≤ r.margem ∧ r.margem < 30) ∧
      (r.status = "Ruim" ↔ r.margem < 20) := by
  unfold processProgramatica
  rw [hb]
  refine ⟨_, rfl, fun rest => ?_, rfl, rfl, rfl, ?_, ?_, ?_⟩
  · rw [calcular_prog_cons_some c rest fs _
      (by unfold processProgramatica; rw [hb])]
  · exact (margem_ite_partition _).1
  · exact (margem_ite_partition _).2.1
  · exact (margem_ite_partition _).2.2

/-- Witness for C7: the contract with budget `R$100,00` and 65 delivered. -/
theorem C7_margens_witness :
    ∃ r, processProgramatica [fatoProg] campProg = some r ∧
      (∀ rest, (calcular_metricas_programatica (campProg :: rest) [fatoProg]).1
          = r :: (calcular_metricas_programatica rest [fatoProg]).1) ∧
      r.investimento_total = 100 ∧
      r.investimento_entregue
          = soma (·.revenue) (dados_campanha [fatoProg] campProg.insertion_order) ∧
      r.margem = (if (100:ℚ) > 0
          then (100 - r.investimento_entregue) / 100 * 100 else 0) ∧
      (r.status = "Boa" ↔ 30 ≤ r.margem) ∧
      (r.status = "Média" ↔ 20 ≤ r.margem ∧ r.margem < 30) ∧
      (r.status = "Ruim" ↔ r.margem < 20) :=
  C7_margens [fatoProg] campProg 100 (by
    simp [parseBudget, campProg, replaceRS, removeDots, commaToDot, pyFloat,
      splitDot, natOfDigits])

/-- C8: a contract whose end date is strictly before asOfDate never appears
in the output of `calcular_metricas`: every output row carries an end date
at least asOfDate, and a parsed contract that has already ended is skipped
by the loop. -/
theorem C8_encerradas (cs : List Campanha) (fs : List Fact) (hoje : Int)
    (r : Resultado) (hr : r ∈ (calcular_metricas cs fs hoje).1) :
    hoje ≤ r.fim_campanha ∧
    (∀ c2 inicio fim, c2.inicio_campanha = some inicio →
      c2.fim_campanha = some fim → fim < hoje →
      processCampanha hoje fs c2 = .skipped) := by
  constructor
  · obtain ⟨c, hc, hok⟩ := (mem_calcular_fst_iff cs fs hoje r).mp hr
    obtain ⟨inicio, fim, volume, hi, hf, hv, hend, hdt, rfl⟩ :=
      (processCampanha_ok_iff hoje fs c _).mp hok
    rw [montaResultado_fim]
    exact Int.not_lt.mp hend
  · intro c2 inicio fim hi hf hend
    exact processCampanha_skipped_of_ended hoje fs c2 inicio fim hi hf hend

/-- Witness for C8: the concrete CPM run on day 5 (row ends on day 10). -/
theorem C8_encerradas_witness :
    (5 : Int) ≤ resultadoCPM.fim_campanha ∧
    (∀ c2 inicio fim, c2.inicio_campanha = some inicio →
      c2.fim_campanha = some fim → fim < 5 →
      processCampanha 5 [fatoA, fatoB] c2 = .skipped) :=
  C8_encerradas [campCPM] [fatoA, fatoB] 5 resultadoCPM (by
    rw [mem_calcular_fst_iff]
    refine ⟨campCPM, by simp, ?_⟩
    rw [processCampanha_ok_iff]
    exact ⟨1, 10, 10000, rfl, rfl, rfl, by decide, by decide, rfl⟩)

/-- C9: a failing contract row is caught, skipped, and reported, and every
remaining row is still processed: with a failing row between xs and ys the
output rows are exactly those of xs followed by those of ys, the failing
row's identifier appears among the diagnostics, and in general the output
is one row per surviving contract in input order. -/
theorem C9_isolamento (xs ys : List Campanha) (c : Campanha) (fs : List Fact)
    (hoje : Int) (hc : processCampanha hoje fs c = .erro) :
    (calcular_metricas (xs ++ c :: ys) fs hoje).1
        = (calcular_metricas xs fs hoje).1 ++ (calcular_metricas ys fs hoje).1 ∧
    c.insertion_order ∈ (calcular_metricas (xs ++ c :: ys) fs hoje).2 ∧
    (calcular_metricas (xs ++ c :: ys) fs hoje).1
        = (xs ++ c :: ys).filterMap
            (fun c2 => (processCampanha hoje fs c2).toOption) := by
  have hsplit := calcular_append xs (c :: ys) fs hoje
  have hcons := calcular_cons_erro c ys fs hoje hc
  refine ⟨?_, ?_, calcular_fst_eq_filterMap _ _ _⟩
  · rw [hsplit, hcons]
  · rw [hsplit, hcons]
    simp

/-- Witness for C9: the contract with a non-numeric volume between two good
contracts. -/
theorem C9_isolamento_witness :
    (calcular_metricas ([campCPM] ++ campSemVolume :: [campOutro])
          [fatoA, fatoB, fatoX] 5).1
        = (calcular_metricas [campCPM] [fatoA, fatoB, fatoX] 5).1
            ++ (calcular_metricas [campOutro] [fatoA, fatoB, fatoX] 5).1 ∧
    campSemVolume.insertion_order
        ∈ (calcular_metricas ([campCPM] ++ campSemVolume :: [campOutro])
            [fatoA, fatoB, fatoX] 5).2 ∧
    (calcular_metricas ([campCPM] ++ campSemVolume :: [campOutro])
          [fatoA, fatoB, fatoX] 5).1
        = ([campCPM] ++ campSemVolume :: [campOutro]).filterMap
            (fun c2 => (processCampanha 5 [fatoA, fatoB, fatoX] c2).toOption) :=
  C9_isolamento [campCPM] [campOutro] campSemVolume [fatoA, fatoB, fatoX] 5
    (by simp [processCampanha, campSemVolume])

/-- C10: budget parsing strips `R$`, removes every `'.'`, and only then
converts `','` to `'.'`: every Brazilian-formatted budget string (`R$`,
dot-separated digit groups, a comma, then decimal digits) parses to its
intended value — the grouped digits read as one integer plus the decimal
digits over a power of ten — while every dot-decimal digit string parses
without error to the concatenation of all its digits, one hundred times the
intended value when there are two decimals: the dot is always treated as a
thousands separator, never as a decimal point. -/
theorem C10_parseBudget (gs : List (List Char)) (cents intD fracD : List Char)
    (hg : ∀ g ∈ gs, ∀ ch ∈ g, ch.isDigit = true)
    (hcne : cents ≠ []) (hcd : ∀ ch ∈ cents, ch.isDigit = true)
    (hid : ∀ ch ∈ intD, ch.isDigit = true)
    (hfd : ∀ ch ∈ fracD, ch.isDigit = true)
    (hne : intD ++ fracD ≠ []) :
    parseBudget (brazilianBudget gs cents)
        = some ((natOfDigits gs.flatten : ℚ)
            + (natOfDigits cents : ℚ) / 10 ^ cents.length) ∧
    parseBudget (intD ++ '.' :: fracD)
        = some ((natOfDigits (intD ++ fracD) : ℚ)) := by
  constructor
  · have hflat : ∀ ch ∈ gs.flatten, ch.isDigit = true := by
      intro ch hm
      obtain ⟨g, hgmem, hchm⟩ := List.mem_flatten.mp hm
      exact hg g hgmem ch hchm
    have hnoR : 'R' ∉ mkGrouped gs ++ ',' :: cents := by
      intro hm
      rcases List.mem_append.mp hm with hm | hm
      · rcases mem_mkGrouped gs hg 'R' hm with hd | hd
        · exact absurd hd (by decide)
        · exact absurd hd (by decide)
      · rcases List.mem_cons.mp hm with hm | hm
        · exact absurd hm (by decide)
        · exact absurd (hcd 'R' hm) (by decide)
    show pyFloat (commaToDot (removeDots (replaceRS
        ('R' :: '$' :: (mkGrouped gs ++ ',' :: cents))))) = _
    rw [show replaceRS ('R' :: '$' :: (mkGrouped gs ++ ',' :: cents))
        = replaceRS (mkGrouped gs ++ ',' :: cents) from rfl]
    rw [replaceRS_of_not_mem _ hnoR]
    rw [show removeDots (mkGrouped gs ++ ',' :: cents)
          = removeDots (mkGrouped gs) ++ removeDots (',' :: cents)
        from List.filter_append _ _]
    rw [removeDots_mkGrouped gs hg]
    rw [show removeDots (',' :: cents) = ',' :: removeDots cents from by
      simp [removeDots]]
    rw [removeDots_no_dot cents fun hm => absurd (hcd _ hm) (by decide)]
    rw [show commaToDot (gs.flatten ++ ',' :: cents)
          = commaToDot gs.flatten ++ commaToDot (',' :: cents)
        from List.map_append _ _ _]
    rw [commaToDot_no_comma gs.flatten
      fun hm => absurd (hflat _ hm) (by decide)]
    rw [show commaToDot (',' :: cents) = '.' :: commaToDot cents from by
      simp [commaToDot]]
    rw [commaToDot_no_comma cents fun hm => absurd (hcd _ hm) (by decide)]
    exact pyFloat_digits_dot gs.flatten cents (by simp [hcne]) hflat hcd
  · have hnoR : 'R' ∉ intD ++ '.' :: fracD := by
      intro hm
      rcases List.mem_append.mp hm with hm | hm
      · exact absurd (hid _ hm) (by decide)
      rcases List.mem_cons.mp hm with hm | hm
      · exact absurd hm (by decide)
      · exact absurd (hfd _ hm) (by decide)
    show pyFloat (commaToDot (removeDots (replaceRS (intD ++ '.' :: fracD)))) = _
    rw [replaceRS_of_not_mem _ hnoR]
    rw [show removeDots (intD ++ '.' :: fracD)
          = removeDots intD ++ removeDots ('.' :: fracD)
        from List.filter_append _ _]
    rw [show removeDots ('.' :: fracD) = removeDots fracD from by
      simp [removeDots]]
    rw [removeDots_no_dot intD fun hm => absurd (hid _ hm) (by decide),
      removeDots_no_dot fracD fun hm => absurd (hfd _ hm) (by decide)]
    rw [commaToDot_no_comma _ (by
      intro hm
      rcases List.mem_append.mp hm with hm | hm
      · exact absurd (hid _ hm) (by decide)
      · exact absurd (hfd _ hm) (by decide))]
    refine pyFloat_digits _ hne ?_
    intro ch hm
    rcases List.mem_append.mp hm with hm | hm
    · exact hid _ hm
    · exact hfd _ hm

/-- Witness for C10: `R$1.234,56` parses to 1234 + 56/100 and `1500.50`
parses to 150050. -/
theorem C10_parseBudget_witness :
    parseBudget (brazilianBudget [['1'], ['2', '3', '4']] ['5', '6'])
        = some ((natOfDigits ([['1'], ['2', '3', '4']] : List (List Char)).flatten : ℚ)
            + (natOfDigits ['5', '6'] : ℚ) / 10 ^ (['5', '6'] : List Char).length) ∧
    parseBudget (['1', '5', '0', '0'] ++ '.' :: ['5', '0'])
        = some ((natOfDigits (['1', '5', '0', '0'] ++ ['5', '0']) : ℚ)) :=
  C10_parseBudget [['1'], ['2', '3', '4']] ['5', '6'] ['1', '5', '0', '0']
    ['5', '0'] (by decide) (by decide) (by decide) (by decide) (by decide)
    (by decide)

end Weach
